import Mathlib

/-!
Shallow embedding of the `resources-usage` exporter (`export.go`).

Resource quantities (`k8s.io/apimachinery` `resource.Quantity`) are observed
by the code only through `MilliValue()` (CPU), `Value()` (memory bytes),
`IsZero()` and `Add`; they are exact integer-scaled amounts, so each quantity
is embedded as the `Int` it projects to in the unit the code reads it in:
CPU as its milli-value, memory as its byte value. Go's `int64` division
truncates toward zero, which is `Int.tdiv`; the magnitudes involved stay far
below 2^63, so `Int` without wraparound is a faithful model of the arithmetic
the program performs.
-/

/-- Mirror of `Resources` (export.go): a CPU quantity (milli-value) and a
memory quantity (byte value). -/
structure Resources where
  cpu : Int
  memory : Int
deriving DecidableEq

/-- Mirror of `Service` (export.go): one workload snapshot plus the verdict
fields `Action` and `Note` that `verdict` fills in. -/
structure Service where
  Kind : String
  Namespace : String
  Name : String
  Replicas : Int
  Usage : Resources
  Request : Resources
  Action : String
  Note : String
deriving DecidableEq

/-- Round `num / den` (for `den > 0`) to the nearest integer, ties to even:
the rounding Go's `%.2f` formatting applies to the exact quotient. -/
def roundNearestEven (num den : Int) : Int :=
  let q := num.fdiv den
  let r := num - q * den
  if 2 * r < den then q
  else if den < 2 * r then q + 1
  else if q % 2 = 0 then q else q + 1

/-- Hundredths of the percentage `in / all * 100` of `percent` (export.go),
rounded as `%.2f` rounds. Go computes `percent` in `float64`; every instance
this file evaluates is exactly representable (the quotient is an exact
multiple of 1/100), where the `float64` path and this integer path agree. -/
def percentCents (i all : Int) : Int :=
  roundNearestEven (i * 10000) all

/-- Render a number of hundredths as Go's `fmt.Sprintf("%.2f", ...)` renders
the corresponding value (for the nonnegative values `verdict` produces). -/
def fmt2 (cents : Int) : String :=
  let whole := cents.tdiv 100
  let frac := (cents.tmod 100).natAbs
  toString whole ++ "." ++ (if frac < 10 then "0" ++ toString frac else toString frac)

/-- CPU surplus of `verdict` (export.go line 185):
`(s.Request.CPU.MilliValue() - s.Usage.CPU.MilliValue()) / int64(s.Replicas)`. -/
def cpuDiff (s : Service) : Int :=
  (s.Request.cpu - s.Usage.cpu).tdiv s.Replicas

/-- CPU threshold of `verdict` (export.go line 186):
`(10*s.Request.CPU.MilliValue()) / int64(s.Replicas) / 100`. -/
def cpuThreshold (s : Service) : Int :=
  ((10 * s.Request.cpu).tdiv s.Replicas).tdiv 100

/-- Memory surplus of `verdict` (export.go line 191). -/
def memDiff (s : Service) : Int :=
  (s.Request.memory - s.Usage.memory).tdiv s.Replicas

/-- Memory threshold of `verdict` (export.go line 192). -/
def memThreshold (s : Service) : Int :=
  ((10 * s.Request.memory).tdiv s.Replicas).tdiv 100

/-- Condition of the CPU branch of `verdict`: `diff > 0 && diff > threshold`. -/
def cpuOver (s : Service) : Prop :=
  cpuDiff s > 0 ∧ cpuDiff s > cpuThreshold s

instance (s : Service) : Decidable (cpuOver s) :=
  inferInstanceAs (Decidable (cpuDiff s > 0 ∧ cpuDiff s > cpuThreshold s))

/-- Condition of the memory branch of `verdict`. -/
def memOver (s : Service) : Prop :=
  memDiff s > 0 ∧ memDiff s > memThreshold s

instance (s : Service) : Decidable (memOver s) :=
  inferInstanceAs (Decidable (memDiff s > 0 ∧ memDiff s > memThreshold s))

/-- CPU note of `verdict` (export.go line 188):
`fmt.Sprintf("Need reduce CPU %.2f%%(%vm per pod)", percent(diff, request/replicas), diff)`. -/
def cpuNote (s : Service) : String :=
  "Need reduce CPU " ++ fmt2 (percentCents (cpuDiff s) (s.Request.cpu.tdiv s.Replicas))
    ++ "%(" ++ toString (cpuDiff s) ++ "m per pod)"

/-- Memory note of `verdict` (export.go lines 195 and 197), without the
leading join: `Need reduce Memory %.2f%%(%vMi per pod)` with the per-pod
surplus converted to MiB by truncating division by 1024*1024. -/
def memNote (s : Service) : String :=
  "Need reduce Memory " ++ fmt2 (percentCents (memDiff s) (s.Request.memory.tdiv s.Replicas))
    ++ "%(" ++ toString ((memDiff s).tdiv (1024 * 1024)) ++ "Mi per pod)"

/-- Mirror of `verdict` (export.go lines 178-201). -/
def verdict (s : Service) : Service :=
  if s.Replicas = 0 then
    { s with Action := "Need remove" }
  else
    let s1 := { s with Action := "Good" }
    let s2 :=
      if cpuOver s1 then
        { s1 with Action := "Need update", Note := cpuNote s1 }
      else s1
    if memOver s2 then
      { s2 with
        Action := "Need update",
        Note := if s2.Note ≠ "" then s2.Note ++ "; " ++ memNote s2 else memNote s2 }
    else s2

/-- Mirror of `(*Service).CSV` (export.go lines 40-62); the `nil` receiver is
the `none` case. -/
def CSV : Option Service → String
  | none => ""
  | some o =>
    let cpu :=
      if o.Request.cpu = 0 then
        toString o.Usage.cpu ++ "m/unlimit"
      else
        toString o.Usage.cpu ++ "m/" ++ toString o.Request.cpu ++ "m"
    let memory :=
      if o.Request.memory = 0 then
        toString (o.Usage.memory.tdiv (1024 * 1024)) ++ "Mi/unlimit"
      else
        toString (o.Usage.memory.tdiv (1024 * 1024)) ++ "Mi/"
          ++ toString (o.Request.memory.tdiv (1024 * 1024)) ++ "Mi"
    o.Namespace ++ "," ++ o.Name ++ "," ++ o.Kind ++ "," ++ toString o.Replicas
      ++ "," ++ cpu ++ "," ++ memory ++ "," ++ o.Action ++ "," ++ o.Note

-- Helper facts: `cpuOver`, `memOver` and the note builders read only the
-- `Replicas`, `Usage` and `Request` fields, so updating `Action`/`Note`
-- leaves them unchanged (all are definitional equalities).

lemma cpuOver_with (t : Service) (a n : String) :
    cpuOver { t with Action := a, Note := n } = cpuOver t := rfl

lemma memOver_with (t : Service) (a n : String) :
    memOver { t with Action := a, Note := n } = memOver t := rfl

lemma cpuNote_with (t : Service) (a n : String) :
    cpuNote { t with Action := a, Note := n } = cpuNote t := rfl

lemma memNote_with (t : Service) (a n : String) :
    memNote { t with Action := a, Note := n } = memNote t := rfl

/-- Closed form of `verdict` on the `Replicas ≠ 0` path. -/
lemma verdict_pos (s : Service) (h : s.Replicas ≠ 0) :
    verdict s =
      if cpuOver s then
        if memOver s then
          { s with
            Action := "Need update",
            Note := if cpuNote s ≠ "" then cpuNote s ++ "; " ++ memNote s else memNote s }
        else
          { s with Action := "Need update", Note := cpuNote s }
      else
        if memOver s then
          { s with
            Action := "Need update",
            Note := if s.Note ≠ "" then s.Note ++ "; " ++ memNote s else memNote s }
        else
          { s with Action := "Good" } := by
  by_cases hc : cpuOver s <;> by_cases hm : memOver s <;>
    simp [verdict, if_neg h, cpuOver_with, memOver_with, cpuNote_with, memNote_with, hc, hm]

/-- Notes built for a flagged dimension are never the empty string. -/
lemma cpuNote_ne_empty (s : Service) : cpuNote s ≠ "" := by
  intro hEq
  have h := congrArg String.length hEq
  simp [cpuNote, String.length_append] at h
  exact absurd h.1.1.1.1 (by decide)

/-- Snapshot surplus as the spec/claim words it ("per-replica requested minus
per-replica observed, where per-replica amounts are obtained by dividing the
aggregate by replicas with truncating integer division"), to be compared with
the code's `cpuDiff`, which divides the difference of the aggregates. -/
def specCpuSurplus (s : Service) : Int :=
  s.Request.cpu.tdiv s.Replicas - s.Usage.cpu.tdiv s.Replicas

/-- Over-provisioning condition as the spec/claim words it: the per-replica
surplus is positive and exceeds 10% of per-replica requested, both with
truncating integer division. -/
def specCpuOverProvisioned (s : Service) : Prop :=
  specCpuSurplus s > 0 ∧ specCpuSurplus s > (10 * (s.Request.cpu.tdiv s.Replicas)).tdiv 100

instance (s : Service) : Decidable (specCpuOverProvisioned s) :=
  inferInstanceAs (Decidable (_ ∧ _))

/-- Workload on which the claim's condition and the code diverge: 2 replicas,
aggregate requested CPU 2m, aggregate observed CPU 1m. -/
def exSurplus : Service :=
  { Kind := "Deployment", Namespace := "ns", Name := "app", Replicas := 2,
    Usage := { cpu := 1, memory := 0 }, Request := { cpu := 2, memory := 0 },
    Action := "", Note := "" }

/-- Workload of the end-to-end scenario: 2 replicas, requested CPU 2000m and
memory 2Gi aggregate, observed CPU 1000m and memory 2Gi aggregate. -/
def exScenario : Service :=
  { Kind := "Deployment", Namespace := "ns", Name := "app", Replicas := 2,
    Usage := { cpu := 1000, memory := 2 * 1024 * 1024 * 1024 },
    Request := { cpu := 2000, memory := 2 * 1024 * 1024 * 1024 },
    Action := "", Note := "" }

/-- Workload with both dimensions over-provisioned (1 replica, CPU 1000m
requested / 500m used, memory 4Mi requested / 1Mi used). -/
def exBoth : Service :=
  { Kind := "Deployment", Namespace := "ns", Name := "app", Replicas := 1,
    Usage := { cpu := 500, memory := 1024 * 1024 },
    Request := { cpu := 1000, memory := 4 * 1024 * 1024 },
    Action := "", Note := "" }

/-- Threshold boundary workload: surplus exactly 10% of the request. -/
def exBoundaryNo : Service :=
  { Kind := "Deployment", Namespace := "ns", Name := "app", Replicas := 1,
    Usage := { cpu := 900, memory := 0 }, Request := { cpu := 1000, memory := 0 },
    Action := "", Note := "" }

/-- Threshold boundary workload: surplus just above 10% of the request. -/
def exBoundaryYes : Service :=
  { Kind := "Deployment", Namespace := "ns", Name := "app", Replicas := 1,
    Usage := { cpu := 899, memory := 0 }, Request := { cpu := 1000, memory := 0 },
    Action := "", Note := "" }

/-- C1 counterexample: on `exSurplus` (2 replicas, aggregate requested CPU 2m,
aggregate observed CPU 1m) the claim's surplus `2/2 - 1/2 = 1` is positive and
exceeds its 10% threshold `0`, so the claim demands the CPU dimension be
flagged and the action be NeedUpdate; the code divides the aggregate
difference, `(2-1)/2 = 0`, flags nothing, and answers "Good". -/
theorem verdict_claimed_surplus_counterexample :
    specCpuOverProvisioned exSurplus ∧ (verdict exSurplus).Action = "Good" := by
  constructor <;> decide

/-- C1 (amended): for a snapshot with `replicas ≠ 0`, a dimension is flagged
exactly when the surplus computed as (aggregate requested − aggregate
observed) divided by replicas with truncating division is strictly positive
and strictly exceeds the truncating threshold `10·requested / replicas / 100`;
the action is "Need update" exactly when some dimension is flagged and "Good"
exactly when none is. -/
theorem verdict_needUpdate_iff_over (s : Service) (h : s.Replicas ≠ 0) :
    ((verdict s).Action = "Need update" ↔ (cpuOver s ∨ memOver s)) ∧
    ((verdict s).Action = "Good" ↔ ¬(cpuOver s ∨ memOver s)) := by
  have hgu : ("Good" : String) ≠ "Need update" := by decide
  have hug : ("Need update" : String) ≠ "Good" := by decide
  rw [verdict_pos s h]
  by_cases hc : cpuOver s <;> by_cases hm : memOver s <;> simp [hc, hm, hgu, hug]

/-- Witness for the amended C1 theorem at the concrete workload `exBoth`. -/
theorem verdict_needUpdate_iff_over_witness :
    ((verdict exBoth).Action = "Need update" ↔ (cpuOver exBoth ∨ memOver exBoth)) ∧
    ((verdict exBoth).Action = "Good" ↔ ¬(cpuOver exBoth ∨ memOver exBoth)) :=
  verdict_needUpdate_iff_over exBoth (by decide)

/-- C2: a snapshot with `replicas = 0` (and the empty note the aggregator
always produces) gets action "Need remove" and an empty note, whatever its
requested and observed quantities are. -/
theorem verdict_zero_replicas (s : Service) (h : s.Replicas = 0) (hnote : s.Note = "") :
    (verdict s).Action = "Need remove" ∧ (verdict s).Note = "" := by
  simp [verdict, h, hnote]

/-- Witness for the C2 theorem at a concrete zero-replica workload. -/
theorem verdict_zero_replicas_witness :
    (verdict { Kind := "Deployment", Namespace := "ns", Name := "app", Replicas := 0,
               Usage := { cpu := 700, memory := 900 },
               Request := { cpu := 100, memory := 200 },
               Action := "", Note := "" }).Action = "Need remove" ∧
    (verdict { Kind := "Deployment", Namespace := "ns", Name := "app", Replicas := 0,
               Usage := { cpu := 700, memory := 900 },
               Request := { cpu := 100, memory := 200 },
               Action := "", Note := "" }).Note = "" :=
  verdict_zero_replicas _ rfl rfl

/-- C3: the end-to-end scenario (2 replicas, requested CPU 2000m total,
observed CPU 1000m total, requested = observed memory 2Gi total) yields action
"Need update" with note exactly "Need reduce CPU 50.00%(500m per pod)"; and
whenever both dimensions are flagged the note is the CPU note and the memory
note joined by "; ", CPU first. -/
theorem verdict_note_format :
    ((verdict exScenario).Action = "Need update" ∧
      (verdict exScenario).Note = "Need reduce CPU 50.00%(500m per pod)") ∧
    (∀ s : Service, s.Replicas ≠ 0 → cpuOver s → memOver s →
      (verdict s).Note = cpuNote s ++ "; " ++ memNote s) := by
  constructor
  · constructor <;> decide
  · intro s h hc hm
    rw [verdict_pos s h]
    simp [hc, hm, cpuNote_ne_empty s]

/-- Witness for the C3 theorem: the join clause applied at the concrete
both-flagged workload `exBoth`. -/
theorem verdict_note_format_witness :
    (verdict exBoth).Note = cpuNote exBoth ++ "; " ++ memNote exBoth :=
  verdict_note_format.2 exBoth (by decide) (by decide) (by decide)

/-- C4: the 10% threshold is strict. With 1 replica, requested CPU 1000m and
observed 900m (surplus exactly 10%) the verdict is "Good"; with observed 899m
(surplus 101m > 10%) it is "Need update" and the note starts with (hence
contains) "Need reduce CPU". -/
theorem verdict_threshold_strict :
    (verdict exBoundaryNo).Action = "Good" ∧
    (verdict exBoundaryYes).Action = "Need update" ∧
    ∃ t, (verdict exBoundaryYes).Note = "Need reduce CPU" ++ t :=
  ⟨by decide, by decide, ⟨" 10.10%(101m per pod)", by decide⟩⟩

/-- C5: with `replicas > 0`, both requested quantities zero, nonnegative
observed quantities (requests and usage samples are never negative) and the
empty note the aggregator produces, the verdict is "Good" with an empty
note. -/
theorem verdict_zero_request_good (s : Service) (h : 0 < s.Replicas)
    (hqc : s.Request.cpu = 0) (hqm : s.Request.memory = 0)
    (huc : 0 ≤ s.Usage.cpu) (hum : 0 ≤ s.Usage.memory) (hnote : s.Note = "") :
    (verdict s).Action = "Good" ∧ (verdict s).Note = "" := by
  have hne : s.Replicas ≠ 0 := ne_of_gt h
  have hcd : ¬ cpuOver s := by
    intro hover
    obtain ⟨h1, _⟩ := hover
    have hle : cpuDiff s ≤ 0 := by
      unfold cpuDiff
      rw [hqc, zero_sub, Int.neg_tdiv]
      exact neg_nonpos.mpr (Int.tdiv_nonneg huc h.le)
    omega
  have hmd : ¬ memOver s := by
    intro hover
    obtain ⟨h1, _⟩ := hover
    have hle : memDiff s ≤ 0 := by
      unfold memDiff
      rw [hqm, zero_sub, Int.neg_tdiv]
      exact neg_nonpos.mpr (Int.tdiv_nonneg hum h.le)
    omega
  rw [verdict_pos s hne]
  simp [hcd, hmd, hnote]

/-- Witness for the C5 theorem at a concrete unlimited workload. -/
theorem verdict_zero_request_good_witness :
    (verdict { Kind := "Deployment", Namespace := "ns", Name := "app", Replicas := 1,
               Usage := { cpu := 5, memory := 7 },
               Request := { cpu := 0, memory := 0 },
               Action := "", Note := "" }).Action = "Good" ∧
    (verdict { Kind := "Deployment", Namespace := "ns", Name := "app", Replicas := 1,
               Usage := { cpu := 5, memory := 7 },
               Request := { cpu := 0, memory := 0 },
               Action := "", Note := "" }).Note = "" :=
  verdict_zero_request_good _ (by decide) rfl rfl (by decide) (by decide) rfl

/-- Row with nonzero requests whose observed memory is 3,145,728 bytes. -/
def exRow : Service :=
  { Kind := "Deployment", Namespace := "ns", Name := "app", Replicas := 2,
    Usage := { cpu := 100, memory := 3145728 },
    Request := { cpu := 200, memory := 4 * 1024 * 1024 },
    Action := "Good", Note := "" }

/-- Row with zero requested quantities (the "unlimit" sentinel). -/
def exRowUnlimited : Service :=
  { Kind := "StatefulSets", Namespace := "ns", Name := "db", Replicas := 0,
    Usage := { cpu := 100, memory := 3145728 },
    Request := { cpu := 0, memory := 0 },
    Action := "Need remove", Note := "" }

/-- C6: the row formatter renders the fixed column order namespace, name,
kind, replicas, CPU pair, memory pair, action, note; the CPU pair is
`<usage>m/<request>m`, or `<usage>m/unlimit` when the requested CPU is zero,
and the memory pair likewise in MiB by truncating division by 1,048,576
(3,145,728 observed bytes render as `3Mi`); a nil snapshot renders as the
empty string (the function is total, so it never raises). -/
theorem csv_row_format :
    CSV none = "" ∧
    (∀ s : Service, CSV (some s) =
      s.Namespace ++ "," ++ s.Name ++ "," ++ s.Kind ++ "," ++ toString s.Replicas ++ ","
        ++ (if s.Request.cpu = 0 then
              toString s.Usage.cpu ++ "m/unlimit"
            else
              toString s.Usage.cpu ++ "m/" ++ toString s.Request.cpu ++ "m") ++ ","
        ++ (if s.Request.memory = 0 then
              toString (s.Usage.memory.tdiv (1024 * 1024)) ++ "Mi/unlimit"
            else
              toString (s.Usage.memory.tdiv (1024 * 1024)) ++ "Mi/"
                ++ toString (s.Request.memory.tdiv (1024 * 1024)) ++ "Mi") ++ ","
        ++ s.Action ++ "," ++ s.Note) ∧
    CSV (some exRow) = "ns,app,Deployment,2,100m/200m,3Mi/4Mi,Good," ∧
    CSV (some exRowUnlimited) = "ns,db,StatefulSets,0,100m/unlimit,3Mi/unlimit,Need remove," :=
  ⟨rfl, fun _ => rfl, by decide, by decide⟩

/-- Guarded truncating division: `none` exactly when the divisor is zero,
otherwise Go's `int64` division. -/
def tdivChecked (a b : Int) : Option Int :=
  if b = 0 then none else some (a.tdiv b)

/-- Variant of `verdict` in which every division whose divisor is the replica
count is guarded: it fails (returns `none`) if any such division would divide
by zero, and otherwise performs exactly the computation of `verdict`. -/
def verdictD (s : Service) : Option Service :=
  if s.Replicas = 0 then
    some { s with Action := "Need remove" }
  else
    (tdivChecked (s.Request.cpu - s.Usage.cpu) s.Replicas).bind fun dc =>
    (tdivChecked (10 * s.Request.cpu) s.Replicas).bind fun tc =>
    (tdivChecked s.Request.cpu s.Replicas).bind fun pc =>
    (tdivChecked (s.Request.memory - s.Usage.memory) s.Replicas).bind fun dm =>
    (tdivChecked (10 * s.Request.memory) s.Replicas).bind fun tm =>
    (tdivChecked s.Request.memory s.Replicas).bind fun pm =>
      let s1 := { s with Action := "Good" }
      let s2 :=
        if dc > 0 ∧ dc > tc.tdiv 100 then
          { s1 with
            Action := "Need update",
            Note := "Need reduce CPU " ++ fmt2 (percentCents dc pc)
              ++ "%(" ++ toString dc ++ "m per pod)" }
        else s1
      if dm > 0 ∧ dm > tm.tdiv 100 then
        some { s2 with
          Action := "Need update",
          Note :=
            if s2.Note ≠ "" then
              s2.Note ++ "; " ++ ("Need reduce Memory " ++ fmt2 (percentCents dm pm)
                ++ "%(" ++ toString (dm.tdiv (1024 * 1024)) ++ "Mi per pod)")
            else
              "Need reduce Memory " ++ fmt2 (percentCents dm pm)
                ++ "%(" ++ toString (dm.tdiv (1024 * 1024)) ++ "Mi per pod)" }
      else some s2

/-- C9: the verdict engine is total and never divides by the replica count
outside the `replicas ≠ 0` branch: the division-guarded variant never fails
and agrees with `verdict` on every snapshot. -/
theorem verdict_divisions_safe (s : Service) : verdictD s = some (verdict s) := by
  by_cases h : s.Replicas = 0
  · simp [verdictD, verdict, h]
  · rw [verdict_pos s h]
    have hcne := cpuNote_ne_empty s
    simp only [verdictD, tdivChecked, if_neg h, Option.some_bind]
    simp only [cpuNote, memNote, cpuDiff, cpuThreshold, memDiff, memThreshold] at hcne ⊢
    by_cases hc : cpuOver s <;> by_cases hm : memOver s <;>
      simp only [cpuOver, cpuDiff, cpuThreshold, memOver, memDiff, memThreshold] at hc hm <;>
      simp [hc, hm, hcne] <;>
      simp [cpuOver, cpuDiff, cpuThreshold, memOver, memDiff, memThreshold, hc, hm]

/-- C10: `verdict` only ever assigns `Action` and `Note`; kind, namespace,
name, replica count, requested and observed quantities pass through
unchanged. -/
theorem verdict_frame (s : Service) :
    (verdict s).Kind = s.Kind ∧ (verdict s).Namespace = s.Namespace ∧
    (verdict s).Name = s.Name ∧ (verdict s).Replicas = s.Replicas ∧
    (verdict s).Usage = s.Usage ∧ (verdict s).Request = s.Request := by
  unfold verdict
  by_cases h : s.Replicas = 0
  · simp [h]
  · simp only [if_neg h]
    split_ifs <;> simp

/-- Accumulation of `Resources.Add` (export.go: `Add` on both fields). -/
def addResources (a b : Resources) : Resources :=
  { cpu := a.cpu + b.cpu, memory := a.memory + b.memory }

/-- Fold of repeated `Add` accumulation starting from the zero value the
`Service` literal gives each quantity. -/
def sumResources (l : List Resources) : Resources :=
  l.foldl addResources { cpu := 0, memory := 0 }

/-- Aggregation loop body of `handleExportDeployments` / `handleStatefulSets`
(export.go lines 110-132): start from an identity-only `Service`, accumulate
one `Resources` per container spec into `Request`, set `Replicas` to the
number of matching pods, and accumulate every container usage sample of every
matching pod into `Usage`. -/
def aggregateService (kind ns name : String) (containers : List Resources)
    (pods : List (List Resources)) : Service :=
  { Kind := kind, Namespace := ns, Name := name,
    Replicas := (pods.length : Int),
    Usage := sumResources pods.flatten,
    Request := sumResources containers,
    Action := "", Note := "" }

lemma foldl_addResources (a : Resources) (l : List Resources) :
    l.foldl addResources a =
      { cpu := a.cpu + (l.map Resources.cpu).sum,
        memory := a.memory + (l.map Resources.memory).sum } := by
  induction l generalizing a with
  | nil => simp
  | cons x xs ih =>
    simp only [List.foldl_cons, ih, List.map_cons, List.sum_cons, addResources]
    simp [add_assoc]

lemma sumResources_eq (l : List Resources) :
    sumResources l =
      { cpu := (l.map Resources.cpu).sum, memory := (l.map Resources.memory).sum } := by
  simp [sumResources, foldl_addResources]

lemma sumResources_perm {l₁ l₂ : List Resources} (h : l₁.Perm l₂) :
    sumResources l₁ = sumResources l₂ := by
  rw [sumResources_eq, sumResources_eq, (h.map Resources.cpu).sum_eq,
    (h.map Resources.memory).sum_eq]

lemma perm_flatten {α : Type} {l₁ l₂ : List (List α)} (h : l₁.Perm l₂) :
    l₁.flatten.Perm l₂.flatten := by
  induction h with
  | nil => exact List.Perm.refl _
  | cons x _ ih => simpa using ih.append_left x
  | swap x y l =>
    simp only [List.flatten_cons]
    rw [← List.append_assoc, ← List.append_assoc]
    exact List.perm_append_comm.append_right _
  | trans _ _ ih₁ ih₂ => exact ih₁.trans ih₂

/-- C7: aggregation is order-independent. Folding a permutation of the same
container request declarations and a permutation of the same pod usage
samples produces the identical Workload Snapshot, because quantity
accumulation is commutative and associative and the replica count is the pod
count. -/
theorem aggregateService_perm (kind ns name : String)
    (c₁ c₂ : List Resources) (p₁ p₂ : List (List Resources))
    (hc : c₁.Perm c₂) (hp : p₁.Perm p₂) :
    aggregateService kind ns name c₁ p₁ = aggregateService kind ns name c₂ p₂ := by
  unfold aggregateService
  rw [sumResources_perm hc, sumResources_perm (perm_flatten hp), hp.length_eq]

/-- Witness for the C7 theorem at concrete reversed lists. -/
theorem aggregateService_perm_witness :
    aggregateService "Deployment" "ns" "app"
        [{ cpu := 1, memory := 10 }, { cpu := 2, memory := 20 }, { cpu := 3, memory := 30 }]
        [[{ cpu := 4, memory := 40 }], [{ cpu := 5, memory := 50 }]] =
      aggregateService "Deployment" "ns" "app"
        [{ cpu := 3, memory := 30 }, { cpu := 2, memory := 20 }, { cpu := 1, memory := 10 }]
        [[{ cpu := 5, memory := 50 }], [{ cpu := 4, memory := 40 }]] :=
  aggregateService_perm "Deployment" "ns" "app" _ _ _ _ (by decide) (by decide)

/-- One workload item as `handleExportDeployments` / `handleStatefulSets`
sees it: identity, the container request declarations of its pod template,
and the outcomes of the two fallible collaborator calls made for it — the
selector interpretation (`metav1.LabelSelectorAsMap`; the selector value
itself only feeds the telemetry query, so it is modelled as `Unit`) and the
pod-usage fetch (`PodMetricses(...).List`), one usage-sample list per
matching pod. -/
structure DeployItem where
  Name : String
  Namespace : String
  containers : List Resources
  selectorResult : Except String Unit
  podMetricsResult : Except String (List (List Resources))

/-- Loop body shared by `handleExportDeployments` and `handleStatefulSets`
(export.go lines 105-134 and 145-174): process items in order; on the first
selector or telemetry failure return `(nil, err)`, otherwise aggregate and
judge every workload. The pair mirrors Go's `([]Service, error)` return:
`none` is the nil slice. -/
def handleItems (kind : String) : List DeployItem → Option (List Service) × Option String
  | [] => (some [], none)
  | item :: rest =>
    match item.selectorResult with
    | .error e => (none, some e)
    | .ok _ =>
      match item.podMetricsResult with
      | .error e => (none, some e)
      | .ok pods =>
        match handleItems kind rest with
        | (some svcs, none) =>
          (some (verdict (aggregateService kind item.Namespace item.Name item.containers pods)
            :: svcs), none)
        | (_, e) => (none, e)

/-- Mirror of `handleExportDeployments` (export.go lines 98-136): the
deployment-inventory fetch may itself fail, else the items are processed. -/
def handleExportDeployments (deploysResult : Except String (List DeployItem)) :
    Option (List Service) × Option String :=
  match deploysResult with
  | .error e => (none, some e)
  | .ok items => handleItems "Deployment" items

/-- Mirror of `handleStatefulSets` (export.go lines 138-176). -/
def handleStatefulSets (stsResult : Except String (List DeployItem)) :
    Option (List Service) × Option String :=
  match stsResult with
  | .error e => (none, some e)
  | .ok items => handleItems "StatefulSets" items

/-- One namespace as `export` sees it: its name and the outcomes of the two
inventory fetches for it. -/
structure NamespaceEnv where
  Name : String
  deploysResult : Except String (List DeployItem)
  stsResult : Except String (List DeployItem)

/-- Namespace loop of `export` (export.go lines 73-94): skip ignored
namespaces, abort on the first failing handler, otherwise print the CSV rows
of the namespace's deployments then stateful sets and continue. Returns the
printed rows and the error returned to the caller. -/
def exportLoop (ignoreNamespaces : List String) : List NamespaceEnv → List String × Option String
  | [] => ([], none)
  | ns :: rest =>
    if ns.Name ∈ ignoreNamespaces then exportLoop ignoreNamespaces rest
    else
      let d := handleExportDeployments ns.deploysResult
      match d.2 with
      | some e => ([], some e)
      | none =>
        let st := handleStatefulSets ns.stsResult
        match st.2 with
        | some e => ([], some e)
        | none =>
          let rows := (d.1.getD []).map (fun s => CSV (some s))
            ++ (st.1.getD []).map (fun s => CSV (some s))
          let res := exportLoop ignoreNamespaces rest
          (rows ++ res.1, res.2)

/-- Header line `export` prints first (export.go line 66). -/
def headerRow : String :=
  "Namespace,Name,Kind,Replicas,CPU Usage/CPU Request(m),Memory Usage/Memory Request(Mi),Action,Note"

/-- Mirror of `export` (export.go lines 64-96; named `export` in the source,
which is a reserved word here): print the header, then either fail on the
namespace-inventory fetch or run the namespace loop. -/
def exportReport (ignoreNamespaces : List String)
    (namespacesResult : Except String (List NamespaceEnv)) : List String × Option String :=
  match namespacesResult with
  | .error e => ([headerRow], some e)
  | .ok nss =>
    let res := exportLoop ignoreNamespaces nss
    (headerRow :: res.1, res.2)

lemma handleItems_error_none (kind : String) :
    ∀ items : List DeployItem,
      (handleItems kind items).2.isSome → (handleItems kind items).1 = none
  | [] => by simp [handleItems]
  | item :: rest => by
    simp only [handleItems]
    cases item.selectorResult with
    | error e => simp
    | ok u =>
      cases item.podMetricsResult with
      | error e => simp
      | ok pods =>
        cases hr : handleItems kind rest with
        | mk l err =>
          cases l with
          | none => cases err <;> simp
          | some svcs => cases err <;> simp

lemma handleItems_fails (kind : String) :
    ∀ (items : List DeployItem) (it : DeployItem), it ∈ items →
      ((∃ e, it.selectorResult = .error e) ∨ (∃ e, it.podMetricsResult = .error e)) →
      ∃ e, handleItems kind items = (none, some e)
  | [], it, hmem, _ => absurd hmem (List.not_mem_nil it)
  | item :: rest, it, hmem, hfail => by
    simp only [handleItems]
    cases hs : item.selectorResult with
    | error e => exact ⟨e, rfl⟩
    | ok u =>
      cases hp : item.podMetricsResult with
      | error e => exact ⟨e, rfl⟩
      | ok pods =>
        rcases List.mem_cons.mp hmem with rfl | hmem'
        · rcases hfail with ⟨e, hf⟩ | ⟨e, hf⟩
          · rw [hs] at hf; exact absurd hf (by simp)
          · rw [hp] at hf; exact absurd hf (by simp)
        · obtain ⟨e, hrest⟩ := handleItems_fails kind rest it hmem' hfail
          rw [hrest]
          exact ⟨e, rfl⟩

lemma exportLoop_fails (ignore : List String) :
    ∀ (nss : List NamespaceEnv) (ns : NamespaceEnv), ns ∈ nss → ns.Name ∉ ignore →
      ((handleExportDeployments ns.deploysResult).2.isSome ∨
        (handleStatefulSets ns.stsResult).2.isSome) →
      (exportLoop ignore nss).2.isSome
  | [], ns, hmem, _, _ => absurd hmem (List.not_mem_nil ns)
  | n :: rest, ns, hmem, hni, hfail => by
    by_cases hig : n.Name ∈ ignore
    · simp only [exportLoop, if_pos hig]
      rcases List.mem_cons.mp hmem with rfl | hmem'
      · exact absurd hig hni
      · exact exportLoop_fails ignore rest ns hmem' hni hfail
    · simp only [exportLoop, if_neg hig]
      cases hd : (handleExportDeployments n.deploysResult).2 with
      | some e => simp
      | none =>
        cases hst : (handleStatefulSets n.stsResult).2 with
        | some e => simp
        | none =>
          rcases List.mem_cons.mp hmem with rfl | hmem'
          · rcases hfail with hf | hf
            · rw [hd] at hf; exact absurd hf (by simp)
            · rw [hst] at hf; exact absurd hf (by simp)
          · simpa using exportLoop_fails ignore rest ns hmem' hni hfail

/-- Workload item whose selector cannot be interpreted. -/
def badItem : DeployItem :=
  { Name := "app", Namespace := "ns", containers := [],
    selectorResult := .error "bad selector", podMetricsResult := .ok [] }

/-- Namespace whose deployment-inventory fetch fails. -/
def badNs : NamespaceEnv :=
  { Name := "ns1", deploysResult := .error "boom", stsResult := .ok [] }

/-- C8: a failing inventory fetch, an uninterpretable pod selector or a
failing telemetry fetch makes the per-namespace aggregation return an error
together with a nil service list; the namespace loop propagates the first
such error immediately, emitting no further rows, and the driver's result
carries the error — there is no partial-success mode, per-workload isolation
or retry anywhere on these paths. -/
theorem export_error_propagation :
    (∀ e : String, handleExportDeployments (.error e) = (none, some e)) ∧
    (∀ (items : List DeployItem) (it : DeployItem), it ∈ items →
      ((∃ e, it.selectorResult = .error e) ∨ (∃ e, it.podMetricsResult = .error e)) →
      ∃ e, handleExportDeployments (.ok items) = (none, some e)) ∧
    (∀ dr : Except String (List DeployItem),
      (handleExportDeployments dr).2.isSome → (handleExportDeployments dr).1 = none) ∧
    (∀ (ignore : List String) (ns : NamespaceEnv) (rest : List NamespaceEnv) (e : String),
      ns.Name ∉ ignore → (handleExportDeployments ns.deploysResult).2 = some e →
      exportLoop ignore (ns :: rest) = ([], some e)) ∧
    (∀ (ignore : List String) (nss : List NamespaceEnv) (ns : NamespaceEnv), ns ∈ nss →
      ns.Name ∉ ignore →
      ((handleExportDeployments ns.deploysResult).2.isSome ∨
        (handleStatefulSets ns.stsResult).2.isSome) →
      (exportLoop ignore nss).2.isSome ∧ (exportReport ignore (.ok nss)).2.isSome) := by
  refine ⟨fun e => rfl, ?_, ?_, ?_, ?_⟩
  · exact fun items it hmem hfail => handleItems_fails "Deployment" items it hmem hfail
  · intro dr
    cases dr with
    | error e => simp [handleExportDeployments]
    | ok items => exact handleItems_error_none "Deployment" items
  · intro ignore ns rest e hni hd
    simp [exportLoop, if_neg hni, hd]
  · intro ignore nss ns hmem hni hfail
    have h := exportLoop_fails ignore nss ns hmem hni hfail
    exact ⟨h, by simpa [exportReport] using h⟩

/-- Witness for the C8 theorem at concrete failing inputs. -/
theorem export_error_propagation_witness :
    handleExportDeployments (.error "down") = (none, some "down") ∧
    (∃ e, handleExportDeployments (.ok [badItem]) = (none, some e)) ∧
    exportLoop [] [badNs] = ([], some "boom") ∧
    (exportLoop [] [badNs]).2.isSome ∧ (exportReport [] (.ok [badNs])).2.isSome :=
  ⟨export_error_propagation.1 "down",
   export_error_propagation.2.1 [badItem] badItem (List.mem_singleton_self _)
     (Or.inl ⟨"bad selector", rfl⟩),
   export_error_propagation.2.2.2.1 [] badNs [] "boom" (List.not_mem_nil _) rfl,
   (export_error_propagation.2.2.2.2 [] [badNs] badNs (List.mem_singleton_self _)
     (List.not_mem_nil _) (Or.inl rfl)).1,
   (export_error_propagation.2.2.2.2 [] [badNs] badNs (List.mem_singleton_self _)
     (List.not_mem_nil _) (Or.inl rfl)).2⟩
